import Mathlib

/-!
Verification development for the RTP-to-WebRTC bridge server (`index.js`).

The server keeps a registry of rooms (`rooms : Map`), each room holding a
router (routing context) plus maps of transports, producers and consumers.
An RTP ingestion pipeline (`createRtpReceiver`) detects the SSRC of the
first sufficiently long datagram, creates a producer, and forwards packets
to the media engine's local ports.  A WebSocket signaling handler
dispatches `join`, `get-rtp-capabilities`, `connect-transport`, `consume`
and `resume-consumer` actions.

The development below is a shallow embedding of that code: JavaScript
`Map`s become association lists with first-occurrence replacement (a JS
`Map` never holds a duplicate key), the single-threaded event loop becomes
sequential state passing, and the two `await` suspension points that the
claims are about (router creation inside `getOrCreateRoom`, and the socket
binds) are modelled as explicit phases so that interleavings of handlers
can be stated.
-/

/-! ## Association-list model of a JavaScript Map -/

/-- Lookup in a JS `Map`: the value stored under key `k`, if any. -/
def assocGet {α : Type} {β : Type} [DecidableEq α] : List (α × β) → α → Option β
  | [], _ => none
  | (k, v) :: rest, k0 => if k = k0 then some v else assocGet rest k0

/-- `Map.set` semantics: replace the entry for `k` if present (first
occurrence; a real JS `Map` never holds duplicates), else append. -/
def assocSet {α : Type} {β : Type} [DecidableEq α] : List (α × β) → α → β → List (α × β)
  | [], k0, v0 => [(k0, v0)]
  | (k, v) :: rest, k0, v0 =>
    if k = k0 then (k0, v0) :: rest else (k, v) :: assocSet rest k0 v0

/-! ## JavaScript value falsiness

`join` resolves its room with `data.roomId || 'default'`; the embedding
needs JS truthiness for the possible JSON field values. -/

/-- A JSON-ish JavaScript value, as far as the `roomId` field is concerned. -/
inductive JsVal : Type
  | undef : JsVal
  | null : JsVal
  | str : String → JsVal
  | num : Int → JsVal
  | boolean : Bool → JsVal
deriving DecidableEq

/-- JS truthiness: `undefined`, `null`, `""`, `0` and `false` are falsy. -/
def truthy : JsVal → Bool
  | .undef => false
  | .null => false
  | .str s => !(s == "")
  | .num n => !(n == 0)
  | .boolean b => b

/-! ## Room Registry (`getOrCreateRoom`, index.js lines 24-31)

```js
async function getOrCreateRoom(roomId) {
  if (!rooms.has(roomId)) {
    const worker = workers[0];
    const router = await worker.createRouter({ ... });
    rooms.set(roomId, { router, transports: ..., producers: ..., consumers: ... });
  }
  return rooms.get(roomId);
}
```

The `await worker.createRouter(...)` suspends between the `has` check and
the `set`, so a call is modelled in two phases: `gocStart` runs the
synchronous prefix up to the suspension (fast path: room present, return
it), and `gocResume` runs the continuation after the router promise
resolves (install the room, then `return rooms.get(roomId)`, which happens
in the same microtask as the `set`).  Router identities are Nats handed
out by a counter, standing for the distinct router objects the engine
returns. -/

/-- The room registry state: `rooms` keyed by room id, holding the router
(routing-context) identity, plus the supply of fresh router identities. -/
structure Registry where
  rooms : List (String × Nat)
  nextRouter : Nat
deriving DecidableEq

/-- Registry at process start: no rooms. -/
def regInit : Registry := { rooms := [], nextRouter := 0 }

/-- Outcome of one phase of a `getOrCreateRoom` call: either the call
finished with a routing context, or it is suspended awaiting
`worker.createRouter`. -/
inductive GocOutcome : Type
  | done : Nat → GocOutcome
  | awaitingRouter : GocOutcome
deriving DecidableEq

/-- Synchronous prefix of `getOrCreateRoom(k)`: the `rooms.has(k)` check.
If the room exists the call returns it at once; otherwise it suspends on
`createRouter`. -/
def gocStart (st : Registry) (k : String) : Registry × GocOutcome :=
  match assocGet st.rooms k with
  | some r => (st, .done r)
  | none => (st, .awaitingRouter)

/-- Continuation of a suspended `getOrCreateRoom(k)` call once its
`createRouter` promise resolves: a fresh router is produced,
`rooms.set(k, room)` runs, and the call returns `rooms.get(k)` — all in
one event-loop turn. -/
def gocResume (st : Registry) (k : String) : Registry × GocOutcome :=
  let r := st.nextRouter
  let st1 : Registry := { rooms := assocSet st.rooms k r, nextRouter := r + 1 }
  (st1, .done ((assocGet st1.rooms k).getD 0))

/-! ## Socket bind pair (`createRtpReceiver`, index.js lines 63-66)

```js
await Promise.all([
  new Promise((resolve, reject) => rtpSocket.bind(listenPort, err => err ? reject(err) : resolve())),
  new Promise((resolve, reject) => rtcpSocket.bind(listenPort + 1, err => err ? reject(err) : resolve()))
]);
```

Both bind attempts are started; `Promise.all` rejects as soon as either
rejects, and `createRtpReceiver` contains no `close()` call on any socket,
so a socket whose own bind succeeded stays bound whatever happened to the
other one.  The model takes the outcome of each OS-level bind as input
(`none` = success, `some e` = failure with error `e`) and records the
function's result together with which sockets remain bound afterwards. -/

/-- Result of the awaited `Promise.all` over the two binds: fulfilled, or
rejected with the bind error. -/
inductive BindResult : Type
  | bindOk : BindResult
  | bindErr : String → BindResult
deriving DecidableEq

/-- Residual state of the paired bind step: the overall result of the
awaited `Promise.all`, and whether each socket is left bound. -/
structure BindOutcome where
  result : BindResult
  rtpBound : Bool
  rtcpBound : Bool
deriving DecidableEq

/-- The paired RTP/RTCP bind of `createRtpReceiver`, given each bind's
OS outcome.  No branch releases a socket: the source never calls
`close()` on `rtpSocket` or `rtcpSocket`. -/
def bindPair (rtpErr rtcpErr : Option String) : BindOutcome :=
  { result :=
      match rtpErr with
      | some e => .bindErr e
      | none =>
        match rtcpErr with
        | some e => .bindErr e
        | none => .bindOk
    rtpBound := rtpErr.isNone
    rtcpBound := rtcpErr.isNone }

/-! ## RTP ingestion receiver (`createRtpReceiver`, index.js lines 33-61)

```js
let producer = null, ssrc = null, packetCount = 0;
rtpSocket.on('message', async (packet) => {
  packetCount++;
  if (!ssrc && packet.length >= 12) {
    ssrc = packet.readUInt32BE(8);
    const codecParams = ...;
    producer = await transport.produce({ kind, rtpParameters: { ..., encodings: [{ ssrc }], ... } });
    room.producers.set(producer.id, producer);
    room.producers.set(ssrc, producer);
    if (producer.paused) await producer.resume();
  }
  if (producer && rtpPort) rtpForward.send(packet, rtpPort, '127.0.0.1', ...);
  ...
});
rtcpSocket.on('message', (packet) => { if (rtcpPort) rtcpForward.send(packet, rtcpPort, '127.0.0.1'); });
```

A datagram is a list of byte values.  Each handler invocation is modelled
as one atomic step (`ssrc` is assigned synchronously before the `await`,
so the guard is already closed for later datagrams of a nonzero SSRC while
`produce` is in flight; the sequential model matches the event-loop order
of completed handler runs).  Crucially the guard is JS falsiness `!ssrc`,
which is true both for `null` and for the number `0`; the model keeps that
exactly.  `room.producers` is a JS `Map` whose keys are either the
producer-id *string* or the SSRC *number*, so its keys are modelled as a
sum to keep the two key namespaces apart, as the `Map` does. -/

/-- `packet.readUInt32BE(off)`: big-endian 32-bit read at byte offset
`off` (bytes of a Node Buffer are 0..255; out-of-range reads do not occur
in the source because of the length guard). -/
def readUInt32BE (pkt : List Nat) (off : Nat) : Nat :=
  (pkt.getD off 0) * 16777216 + (pkt.getD (off + 1) 0) * 65536 +
    (pkt.getD (off + 2) 0) * 256 + pkt.getD (off + 3) 0

/-- JS falsiness of the receiver's `ssrc` variable: falsy while still
`null`, and also falsy when it holds the number `0`. -/
def jsNumFalsy : Option Nat → Bool
  | none => true
  | some v => v == 0

/-- A media-engine producer handle: engine-assigned id, kind, pause flag,
closed flag. -/
structure Producer where
  id : Nat
  kind : String
  paused : Bool
  closed : Bool
deriving DecidableEq

/-- A key of the room's `producers` map: either the producer-id string or
the numeric SSRC (a JS `Map` keeps `'x'` and `0` in distinct key
namespaces). -/
inductive PKey : Type
  | pid : Nat → PKey
  | snum : Nat → PKey
deriving DecidableEq

/-- Receiver configuration: the local forwarding ports from the ingest
transport's tuples, the configured kind, and the engine's choice of
initial pause flag for the n-th producer it creates. -/
structure RecvCfg where
  rtpPort : Nat
  rtcpPort : Nat
  kind : String
  pausedInit : Nat → Bool

/-- State of one receiver plus the room's producer map: the receiver's
`ssrc`, `producer` and `packetCount` variables, the store of every
producer the engine ever created for it (index = creation order, which is
also the engine-assigned id), the room's dual-keyed `producers` map
(value = store index), and the forwarded RTP/RTCP datagrams. -/
structure RecvModel where
  ssrc : Option Nat
  producerIdx : Option Nat
  packetCount : Nat
  store : List Producer
  producerMap : List (PKey × Nat)
  forwarded : List (List Nat)
  rtcpForwarded : List (List Nat)
deriving DecidableEq

/-- Receiver state right after `createRtpReceiver` sets up its handlers. -/
def recvInit : RecvModel :=
  { ssrc := none, producerIdx := none, packetCount := 0, store := [],
    producerMap := [], forwarded := [], rtcpForwarded := [] }

/-- `producer.resume()` on the producer at store index `idx`. -/
def resumeAt : List Producer → Nat → List Producer
  | [], _ => []
  | p :: rest, 0 => { p with paused := false } :: rest
  | p :: rest, n + 1 => p :: resumeAt rest n

/-- One invocation of the `rtpSocket.on('message')` handler on datagram
`pkt`. -/
def rtpStep (cfg : RecvCfg) (st : RecvModel) (pkt : List Nat) : RecvModel :=
  let st1 := { st with packetCount := st.packetCount + 1 }
  let st2 :=
    if jsNumFalsy st1.ssrc && decide (pkt.length ≥ 12) then
      let v := readUInt32BE pkt 8
      let idx := st1.store.length
      let p0 : Producer :=
        { id := idx, kind := cfg.kind, paused := cfg.pausedInit idx, closed := false }
      let store1 := st1.store ++ [p0]
      let map1 := assocSet (assocSet st1.producerMap (PKey.pid p0.id) idx) (PKey.snum v) idx
      let store2 := if p0.paused then resumeAt store1 idx else store1
      { st1 with ssrc := some v, producerIdx := some idx,
                 store := store2, producerMap := map1 }
    else st1
  if st2.producerIdx.isSome && decide (cfg.rtpPort ≠ 0) then
    { st2 with forwarded := st2.forwarded ++ [pkt] }
  else st2

/-- One invocation of the `rtcpSocket.on('message')` handler on datagram
`pkt`. -/
def rtcpStep (cfg : RecvCfg) (st : RecvModel) (pkt : List Nat) : RecvModel :=
  if cfg.rtcpPort ≠ 0 then { st with rtcpForwarded := st.rtcpForwarded ++ [pkt] } else st

/-- Process a sequence of RTP datagrams in arrival order. -/
def processPackets (cfg : RecvCfg) (st : RecvModel) (pkts : List (List Nat)) : RecvModel :=
  pkts.foldl (rtpStep cfg) st

/-- The SSRC field of the first datagram long enough for extraction, if
any. -/
def firstSsrc (pkts : List (List Nat)) : Option Nat :=
  (pkts.find? (fun p => decide (p.length ≥ 12))).map (fun p => readUInt32BE p 8)

/-! ## Signaling (wss connection handler, index.js lines 74-110)

```js
wss.on('connection', (ws) => {
  let transport = null;
  ws.on('message', async (msg) => {
    const data = JSON.parse(msg);
    if (data.action === 'join') { ... }
    else if (data.action === 'get-rtp-capabilities') { ... }
    else if (data.action === 'connect-transport' && transport) { ... }
    else if (data.action === 'consume' && transport) { ... }
    else if (data.action === 'resume-consumer' && transport) { ... }
  });
});
```

The whole-server state seen by this handler is the `rooms` map; each room
holds a router id and its transports/producers/consumers maps.  One
message-handler run is modelled as one atomic step of `handle` (the model
of completed event-loop turns; the interleaving-sensitive room-creation
race is treated separately by `gocStart`/`gocResume` above).  Transport,
consumer and router identities come from counters, standing for the
distinct engine-assigned ids.  `getOrCreateRoom` appears here in its
sequential form `getOrCreateRoomSeq` (check, create router, install),
exactly the source's branch structure with no interleaving. -/

/-- A consumer handle: engine id, the `_transportId` back-reference stored
on it at creation, the producer it consumes and its pause flag. -/
structure Consumer where
  id : Nat
  transportId : Nat
  producerId : Nat
  paused : Bool
deriving DecidableEq

/-- A room record as built by `getOrCreateRoom`: the router (routing
context) id and the three collections.  `transports` keeps only the
engine-assigned ids (the map's keys are the ids of the stored transports);
`producers` and `consumers` keep the handles in `Map.values()` order. -/
structure Room where
  routerId : Nat
  transports : List Nat
  producers : List Producer
  consumers : List Consumer
deriving DecidableEq

/-- `room.transports.set(t.id, t)`: the ids are engine-fresh, so this
appends; the guard keeps `Map` semantics (no duplicate key). -/
def addTransport (ts : List Nat) (tid : Nat) : List Nat :=
  if ts.contains tid then ts else ts ++ [tid]

/-- `consumer.resume()` on the stored consumer with id `cid`. -/
def resumeById (cs : List Consumer) (cid : Nat) : List Consumer :=
  cs.map (fun c => if c.id = cid then { c with paused := false } else c)

/-- Whole-server signaling state: the `rooms` map (keyed by the JS value
used as room key) and the fresh-identity supplies of the media engine. -/
structure ServerState where
  rooms : List (JsVal × Room)
  nextRouterId : Nat
  nextTransportId : Nat
  nextConsumerId : Nat
deriving DecidableEq

/-- One signaling session (`wss.on('connection')` closure): its
`let transport = null` variable, holding the transport id once joined. -/
structure Session where
  transport : Option Nat
deriving DecidableEq

/-- An inbound signaling message after `JSON.parse`: the `action` string
and the `roomId` field (other fields — dtlsParameters, rtpCapabilities —
are opaque payloads the model does not need). -/
structure InMsg where
  action : String
  roomId : JsVal
deriving DecidableEq

/-- An outbound signaling message (`ws.send`).  `rtpCapabilities` carries
the id of the router whose capability set is reported, identifying which
routing context answered. -/
inductive OutMsg : Type
  | transportCreated : Nat → OutMsg
  | rtpCapabilities : Nat → OutMsg
  | transportConnected : OutMsg
  | consumerCreated : Nat → Nat → OutMsg
  | errorMsg : String → OutMsg
  | consumerResumed : OutMsg
deriving DecidableEq

/-- The room key every non-join handler uses: `'default'`. -/
def defaultKey : JsVal := .str "default"

/-- The room key the join handler resolves: `data.roomId || 'default'`. -/
def joinKey (v : JsVal) : JsVal := if truthy v then v else defaultKey

/-- Sequential `getOrCreateRoom(k)` (index.js lines 24-31), as executed
when no other handler interleaves with its `await`: return the stored
room, or create a router, install a fresh room and return it. -/
def getOrCreateRoomSeq (st : ServerState) (k : JsVal) : ServerState × Room :=
  match assocGet st.rooms k with
  | some room => (st, room)
  | none =>
    let room : Room :=
      { routerId := st.nextRouterId, transports := [], producers := [], consumers := [] }
    ({ st with rooms := assocSet st.rooms k room, nextRouterId := st.nextRouterId + 1 },
     room)

/-- The predicate of the consume branch's lookup:
`p.kind === 'video' && !p.closed` over `room.producers.values()`. -/
def findVideoProducer (ps : List Producer) : Option Producer :=
  ps.find? (fun p => p.kind == "video" && !p.closed)

/-- The producer-discovery loop (index.js lines 91-95):

```js
let producer = null;
for (let i = 0; i < 50 && !producer; i++) {
  producer = Array.from(room.producers.values()).find(p => p.kind === 'video' && !p.closed);
  if (!producer) await new Promise(r => setTimeout(r, 100));
}
```

`sets n` is the content of `room.producers` visible at the n-th check
(other handlers may add producers during the 100 ms sleeps).  Returns the
found producer (if any), the number of checks performed, and the number of
100 ms sleeps taken. -/
def discoverAux (sets : Nat → List Producer) (i fuel : Nat) :
    Option Producer × Nat × Nat :=
  match fuel with
  | 0 => (none, 0, 0)
  | fuel + 1 =>
    match findVideoProducer (sets i) with
    | some p => (some p, 1, 0)
    | none =>
      let r := discoverAux sets (i + 1) fuel
      (r.1, r.2.1 + 1, r.2.2 + 1)

/-- One completed run of the `ws.on('message')` handler (index.js lines
76-109).  `pInit` is the engine's initial pause flag for a freshly created
consumer (`transport.consume` may return it paused).  Returns the new
server state, the new session state, and the messages sent to this
client. -/
def handle (pInit : Bool) (st : ServerState) (sess : Session) (msg : InMsg) :
    ServerState × Session × List OutMsg :=
  if msg.action = "join" then
    let k := if truthy msg.roomId then msg.roomId else defaultKey
    let (st1, room) := getOrCreateRoomSeq st k
    let tid := st1.nextTransportId
    let room1 := { room with transports := addTransport room.transports tid }
    let st2 := { st1 with rooms := assocSet st1.rooms k room1, nextTransportId := tid + 1 }
    (st2, { transport := some tid }, [.transportCreated tid])
  else if msg.action = "get-rtp-capabilities" then
    let (st1, room) := getOrCreateRoomSeq st defaultKey
    (st1, sess, [.rtpCapabilities room.routerId])
  else if msg.action = "connect-transport" ∧ sess.transport.isSome then
    (st, sess, [.transportConnected])
  else if msg.action = "consume" ∧ sess.transport.isSome then
    let (st1, room) := getOrCreateRoomSeq st defaultKey
    let t := sess.transport.getD 0
    match (discoverAux (fun _ => room.producers) 0 50).1 with
    | none => (st1, sess, [.errorMsg "No producer available"])
    | some p =>
      let cid := st1.nextConsumerId
      let c0 : Consumer := { id := cid, transportId := t, producerId := p.id, paused := pInit }
      let cs1 := room.consumers ++ [c0]
      let cs2 := if c0.paused then resumeById cs1 cid else cs1
      let room2 := { room with consumers := cs2 }
      let st2 := { st1 with rooms := assocSet st1.rooms defaultKey room2,
                            nextConsumerId := cid + 1 }
      (st2, sess, [.consumerCreated cid p.id])
  else if msg.action = "resume-consumer" ∧ sess.transport.isSome then
    let (st1, room) := getOrCreateRoomSeq st defaultKey
    let t := sess.transport.getD 0
    let room1 :=
      match room.consumers.find? (fun c => c.transportId == t) with
      | some c => if c.paused then { room with consumers := resumeById room.consumers c.id }
                  else room
      | none => room
    let st2 := { st1 with rooms := assocSet st1.rooms defaultKey room1 }
    (st2, sess, [.consumerResumed])
  else
    (st, sess, [])

/-- The `join` message with a given `roomId` field. -/
def joinMsg (roomId : JsVal) : InMsg := { action := "join", roomId := roomId }

/-- The `get-rtp-capabilities` message (no `roomId` field). -/
def getCapsMsg : InMsg := { action := "get-rtp-capabilities", roomId := .undef }

/-- The `consume` message (its `rtpCapabilities` payload is opaque). -/
def consumeMsg : InMsg := { action := "consume", roomId := .undef }

/-- The `resume-consumer` message. -/
def resumeMsg : InMsg := { action := "resume-consumer", roomId := .undef }

/-- The `connect-transport` message (its `dtlsParameters` payload is
opaque). -/
def connectMsg : InMsg := { action := "connect-transport", roomId := .undef }

/-- The room-update computation of the resume-consumer branch, named for
reuse in proofs: find the session's consumer and resume it if paused. -/
def resumeRoomUpd (room : Room) (t : Nat) : Room :=
  match room.consumers.find? (fun c => c.transportId == t) with
  | some c => if c.paused then { room with consumers := resumeById room.consumers c.id }
              else room
  | none => room

/-- The receiver's variables before any datagram: `ssrc` and `producer`
still `null`, no producer created, empty producer map. -/
def pristineRecv (st : RecvModel) : Prop :=
  st.ssrc = none ∧ st.producerIdx = none ∧ st.store = [] ∧ st.producerMap = []

/-- The receiver's variables after the single producer creation for a
nonzero SSRC `v`: the guard `!ssrc` is closed forever, exactly one
producer was ever created (the store records every `transport.produce`
call), it is unpaused, and the room map indexes it under both its engine
id and `v`. -/
def stableRecv (cfg : RecvCfg) (v : Nat) (st : RecvModel) : Prop :=
  st.ssrc = some v ∧ st.producerIdx = some 0 ∧
  st.store = [{ id := 0, kind := cfg.kind, paused := false, closed := false }] ∧
  assocGet st.producerMap (PKey.pid 0) = some 0 ∧
  assocGet st.producerMap (PKey.snum v) = some 0

/-! ## Supporting lemmas -/

theorem assocGet_assocSet {α β : Type} [DecidableEq α] (m : List (α × β)) (k : α) (v : β) :
    assocGet (assocSet m k v) k = some v := by
  induction m with
  | nil => simp [assocSet, assocGet]
  | cons p rest ih =>
    obtain ⟨k1, v1⟩ := p
    by_cases h : k1 = k
    · simp [assocSet, h, assocGet]
    · simp [assocSet, h, assocGet, ih]

theorem assocGet_assocSet_ne {α β : Type} [DecidableEq α] (m : List (α × β)) (k k0 : α) (v : β)
    (h : k ≠ k0) : assocGet (assocSet m k v) k0 = assocGet m k0 := by
  induction m with
  | nil => simp [assocSet, assocGet, h]
  | cons p rest ih =>
    obtain ⟨k1, v1⟩ := p
    by_cases h1 : k1 = k
    · subst h1
      simp [assocSet, assocGet, h]
    · simp [assocSet, h1, assocGet, ih]

theorem assocSet_self {α β : Type} [DecidableEq α] (m : List (α × β)) (k : α) (v : β)
    (h : assocGet m k = some v) : assocSet m k v = m := by
  induction m with
  | nil => simp [assocGet] at h
  | cons p rest ih =>
    obtain ⟨k1, v1⟩ := p
    by_cases h1 : k1 = k
    · subst h1
      simp [assocGet] at h
      simp [assocSet, h]
    · simp [assocGet, h1] at h
      simp [assocSet, h1, ih h]

theorem mem_addTransport_self (ts : List Nat) (tid : Nat) : tid ∈ addTransport ts tid := by
  unfold addTransport
  split
  · next h => simpa using h
  · exact List.mem_append_right _ (List.mem_singleton.mpr rfl)

theorem mem_addTransport_mono (ts : List Nat) (tid tid' : Nat) (h : tid ∈ ts) :
    tid ∈ addTransport ts tid' := by
  unfold addTransport
  split
  · exact h
  · exact List.mem_append_left _ h

theorem find_resumeById (cs : List Consumer) (i t : Nat) :
    (resumeById cs i).find? (fun c => c.transportId == t) =
      (cs.find? (fun c => c.transportId == t)).map
        (fun c => if c.id = i then { c with paused := false } else c) := by
  induction cs with
  | nil => simp [resumeById]
  | cons c rest ih =>
    by_cases hid : c.id = i
    · by_cases ht : (c.transportId == t) = true
      · simp [resumeById, List.find?_cons, hid, ht]
      · simp only [resumeById, List.map_cons, List.find?_cons] at *
        simp [hid, ht, ih]
    · by_cases ht : (c.transportId == t) = true
      · simp [resumeById, List.find?_cons, hid, ht]
      · simp only [resumeById, List.map_cons, List.find?_cons] at *
        simp [hid, ht, ih]

theorem resumeRoomUpd_idem (room : Room) (t : Nat) :
    resumeRoomUpd (resumeRoomUpd room t) t = resumeRoomUpd room t := by
  unfold resumeRoomUpd
  cases hf : room.consumers.find? (fun c => c.transportId == t) with
  | none => simp [hf]
  | some c =>
    by_cases hp : c.paused
    · simp only [hf, hp, if_true]
      rw [find_resumeById, hf]
      simp
    · simp [hf, hp]

theorem resumeRoomUpd_transports (room : Room) (t : Nat) :
    (resumeRoomUpd room t).transports = room.transports := by
  unfold resumeRoomUpd
  cases hf : room.consumers.find? (fun c => c.transportId == t) with
  | none => simp
  | some c => by_cases hp : c.paused <;> simp [hp]

theorem getOrCreateRoomSeq_of_get (st : ServerState) (k : JsVal) (room : Room)
    (h : assocGet st.rooms k = some room) : getOrCreateRoomSeq st k = (st, room) := by
  unfold getOrCreateRoomSeq
  simp [h]

theorem getOrCreateRoomSeq_get (st : ServerState) (k : JsVal) :
    assocGet (getOrCreateRoomSeq st k).1.rooms k = some (getOrCreateRoomSeq st k).2 := by
  unfold getOrCreateRoomSeq
  cases hr : assocGet st.rooms k with
  | some room => simp [hr]
  | none => simp [hr, assocGet_assocSet]

theorem getOrCreateRoomSeq_counters (st : ServerState) (k : JsVal) :
    (getOrCreateRoomSeq st k).1.nextTransportId = st.nextTransportId ∧
    (getOrCreateRoomSeq st k).1.nextConsumerId = st.nextConsumerId := by
  unfold getOrCreateRoomSeq
  cases hr : assocGet st.rooms k <;> simp [hr]

theorem getOrCreateRoomSeq_preserves (st : ServerState) (k k0 : JsVal) (room0 : Room)
    (h : assocGet st.rooms k0 = some room0) :
    assocGet (getOrCreateRoomSeq st k).1.rooms k0 = some room0 := by
  unfold getOrCreateRoomSeq
  cases hr : assocGet st.rooms k with
  | some room => simpa using h
  | none =>
    by_cases hk : k = k0
    · subst hk
      rw [hr] at h
      exact absurd h (by simp)
    · simp [assocGet_assocSet_ne _ _ _ _ hk, h]

theorem handle_resume_eq (pInit : Bool) (st : ServerState) (sess : Session) (t : Nat)
    (h : sess.transport = some t) :
    handle pInit st sess resumeMsg =
      ({ (getOrCreateRoomSeq st defaultKey).1 with
          rooms := assocSet (getOrCreateRoomSeq st defaultKey).1.rooms defaultKey
            (resumeRoomUpd (getOrCreateRoomSeq st defaultKey).2 t) }, sess,
        [OutMsg.consumerResumed]) := by
  unfold handle resumeRoomUpd
  simp [resumeMsg, h]

theorem handle_getcaps_eq (pInit : Bool) (st : ServerState) (sess : Session) :
    handle pInit st sess getCapsMsg =
      ((getOrCreateRoomSeq st defaultKey).1, sess,
        [OutMsg.rtpCapabilities (getOrCreateRoomSeq st defaultKey).2.routerId]) := by
  unfold handle
  simp [getCapsMsg]

theorem handle_join_eq (pInit : Bool) (st : ServerState) (sess : Session) (v : JsVal) :
    handle pInit st sess (joinMsg v) =
      ({ (getOrCreateRoomSeq st (joinKey v)).1 with
          rooms := assocSet (getOrCreateRoomSeq st (joinKey v)).1.rooms (joinKey v)
            { (getOrCreateRoomSeq st (joinKey v)).2 with
                transports := addTransport (getOrCreateRoomSeq st (joinKey v)).2.transports
                  (getOrCreateRoomSeq st (joinKey v)).1.nextTransportId },
          nextTransportId := (getOrCreateRoomSeq st (joinKey v)).1.nextTransportId + 1 },
       { transport := some (getOrCreateRoomSeq st (joinKey v)).1.nextTransportId },
       [OutMsg.transportCreated (getOrCreateRoomSeq st (joinKey v)).1.nextTransportId]) := by
  unfold handle joinKey
  simp [joinMsg]

theorem discoverAux_first_check (sets : Nat → List Producer) (i fuel : Nat) (p : Producer)
    (h : findVideoProducer (sets i) = some p) :
    discoverAux sets i (fuel + 1) = (some p, 1, 0) := by
  unfold discoverAux
  simp [h]

theorem discoverAux_checks_le (sets : Nat → List Producer) (fuel : Nat) :
    ∀ i, (discoverAux sets i fuel).2.1 ≤ fuel := by
  induction fuel with
  | zero => intro i; simp [discoverAux]
  | succ fuel ih =>
    intro i
    unfold discoverAux
    cases hf : findVideoProducer (sets i) with
    | some p => simp [hf]
    | none =>
      simp only [hf]
      have := ih (i + 1)
      omega

theorem discoverAux_none_iff (sets : Nat → List Producer) (fuel : Nat) :
    ∀ i, (discoverAux sets i fuel).1 = none ↔
      ∀ j, j < fuel → findVideoProducer (sets (i + j)) = none := by
  induction fuel with
  | zero => intro i; simp [discoverAux]
  | succ fuel ih =>
    intro i
    unfold discoverAux
    cases hf : findVideoProducer (sets i) with
    | some p =>
      simp only [hf]
      constructor
      · intro hcon
        exact absurd hcon (by simp)
      · intro hall
        have h0 := hall 0 (by omega)
        rw [Nat.add_zero] at h0
        rw [h0] at hf
        exact absurd hf (by simp)
    | none =>
      simp only [hf]
      constructor
      · intro h1 j hj
        simp only at h1
        cases j with
        | zero => simpa using hf
        | succ j =>
          have := (ih (i + 1)).mp h1 j (by omega)
          have heq : i + 1 + j = i + (j + 1) := by omega
          rwa [heq] at this
      · intro hall
        show (discoverAux sets (i + 1) fuel).1 = none
        apply (ih (i + 1)).mpr
        intro j hj
        have := hall (j + 1) (by omega)
        have heq : i + (j + 1) = i + 1 + j := by omega
        rwa [heq] at this

theorem discoverAux_none_counts (sets : Nat → List Producer) (fuel : Nat) :
    ∀ i, (discoverAux sets i fuel).1 = none →
      discoverAux sets i fuel = (none, fuel, fuel) := by
  induction fuel with
  | zero => intro i _; simp [discoverAux]
  | succ fuel ih =>
    intro i h1
    unfold discoverAux at h1 ⊢
    cases hf : findVideoProducer (sets i) with
    | some p =>
      rw [hf] at h1
      exact absurd h1 (by simp)
    | none =>
      rw [hf] at h1
      simp only at h1 ⊢
      rw [ih (i + 1) h1]

theorem discoverAux_some_counts (sets : Nat → List Producer) (fuel : Nat) :
    ∀ i p, (discoverAux sets i fuel).1 = some p →
      (discoverAux sets i fuel).2.1 = (discoverAux sets i fuel).2.2 + 1 := by
  induction fuel with
  | zero => intro i p h; simp [discoverAux] at h
  | succ fuel ih =>
    intro i p h1
    unfold discoverAux at h1 ⊢
    cases hf : findVideoProducer (sets i) with
    | some q => simp [hf]
    | none =>
      rw [hf] at h1
      simp only at h1 ⊢
      have := ih (i + 1) p h1
      omega

theorem discoverAux_const_none (ps : List Producer) (fuel : Nat)
    (h : findVideoProducer ps = none) :
    ∀ i, (discoverAux (fun _ => ps) i fuel).1 = none := by
  intro i
  rw [discoverAux_none_iff]
  intro j _
  exact h

theorem handle_consume_noProducer (pInit : Bool) (st : ServerState) (sess : Session) (t : Nat)
    (h : sess.transport = some t)
    (hnone : findVideoProducer (getOrCreateRoomSeq st defaultKey).2.producers = none) :
    handle pInit st sess consumeMsg =
      ((getOrCreateRoomSeq st defaultKey).1, sess,
        [OutMsg.errorMsg "No producer available"]) := by
  unfold handle
  have hd := discoverAux_const_none (getOrCreateRoomSeq st defaultKey).2.producers 50 hnone 0
  simp [consumeMsg, h, hd]

theorem rtpStep_pristine_short (cfg : RecvCfg) (st : RecvModel) (pkt : List Nat)
    (hp : pristineRecv st) (hlen : ¬ pkt.length ≥ 12) :
    pristineRecv (rtpStep cfg st pkt) := by
  obtain ⟨h1, h2, h3, h4⟩ := hp
  unfold rtpStep
  simp [h1, h2, h3, h4, hlen, jsNumFalsy, pristineRecv]

theorem rtpStep_creates (cfg : RecvCfg) (st : RecvModel) (pkt : List Nat)
    (hp : pristineRecv st) (hlen : pkt.length ≥ 12) :
    stableRecv cfg (readUInt32BE pkt 8) (rtpStep cfg st pkt) := by
  obtain ⟨h1, h2, h3, h4⟩ := hp
  obtain ⟨s1, s2, s3, s4, s5, s6, s7⟩ := st
  simp only at h1 h2 h3 h4
  subst h1
  subst h2
  subst h3
  subst h4
  by_cases hpi : cfg.pausedInit 0 = true <;>
    by_cases hrp : cfg.rtpPort = 0 <;>
      simp [rtpStep, stableRecv, jsNumFalsy, hlen, hpi, hrp, resumeAt, assocGet, assocSet]

theorem rtpStep_stable (cfg : RecvCfg) (st : RecvModel) (pkt : List Nat) (v : Nat)
    (hv : v ≠ 0) (hs : stableRecv cfg v st) : stableRecv cfg v (rtpStep cfg st pkt) := by
  obtain ⟨h1, h2, h3, h4, h5⟩ := hs
  obtain ⟨s1, s2, s3, s4, s5, s6, s7⟩ := st
  simp only at h1 h2 h3 h4 h5
  subst h1
  subst h2
  subst h3
  by_cases hrp : cfg.rtpPort = 0 <;>
    simp [rtpStep, stableRecv, jsNumFalsy, hv, hrp, h4, h5]

theorem processPackets_stable (cfg : RecvCfg) (v : Nat) (hv : v ≠ 0) (pkts : List (List Nat)) :
    ∀ st, stableRecv cfg v st → stableRecv cfg v (processPackets cfg st pkts) := by
  induction pkts with
  | nil => intro st hs; exact hs
  | cons p rest ih =>
    intro st hs
    exact ih _ (rtpStep_stable cfg st p v hv hs)

theorem processPackets_from_pristine (cfg : RecvCfg) (v : Nat) (hv : v ≠ 0)
    (pkts : List (List Nat)) :
    ∀ st, pristineRecv st → firstSsrc pkts = some v →
      stableRecv cfg v (processPackets cfg st pkts) := by
  induction pkts with
  | nil => intro st _ hf; simp [firstSsrc] at hf
  | cons p rest ih =>
    intro st hp hf
    by_cases hlen : p.length ≥ 12
    · have hfp : firstSsrc (p :: rest) = some (readUInt32BE p 8) := by
        simp [firstSsrc, List.find?_cons, hlen]
      rw [hfp] at hf
      have hveq : readUInt32BE p 8 = v := by injection hf
      subst hveq
      exact processPackets_stable cfg _ hv rest _ (rtpStep_creates cfg st p hp hlen)
    · have hfr : firstSsrc (p :: rest) = firstSsrc rest := by
        simp [firstSsrc, List.find?_cons, hlen]
      rw [hfr] at hf
      exact ih _ (rtpStep_pristine_short cfg st p hp hlen) hf

theorem goc_fst_of_get (st : ServerState) (k : JsVal) (room : Room)
    (h : assocGet st.rooms k = some room) : (getOrCreateRoomSeq st k).1 = st := by
  rw [getOrCreateRoomSeq_of_get st k room h]

theorem goc_snd_of_get (st : ServerState) (k : JsVal) (room : Room)
    (h : assocGet st.rooms k = some room) : (getOrCreateRoomSeq st k).2 = room := by
  rw [getOrCreateRoomSeq_of_get st k room h]

theorem handle_resume_second (pInit : Bool) (st : ServerState) (sess : Session) (t : Nat)
    (h : sess.transport = some t) :
    handle pInit (handle pInit st sess resumeMsg).1 sess resumeMsg =
      ((handle pInit st sess resumeMsg).1, sess, [OutMsg.consumerResumed]) := by
  have hget : assocGet (handle pInit st sess resumeMsg).1.rooms defaultKey =
      some (resumeRoomUpd (getOrCreateRoomSeq st defaultKey).2 t) := by
    rw [handle_resume_eq pInit st sess t h]
    exact assocGet_assocSet _ _ _
  rw [handle_resume_eq pInit ((handle pInit st sess resumeMsg).1) sess t h]
  rw [goc_fst_of_get _ _ _ hget, goc_snd_of_get _ _ _ hget]
  rw [resumeRoomUpd_idem]
  rw [assocSet_self _ _ _ hget]

theorem handle_action_join (pInit : Bool) (st : ServerState) (sess : Session) (msg : InMsg)
    (ha : msg.action = "join") :
    handle pInit st sess msg =
      ({ (getOrCreateRoomSeq st (joinKey msg.roomId)).1 with
          rooms := assocSet (getOrCreateRoomSeq st (joinKey msg.roomId)).1.rooms
            (joinKey msg.roomId)
            { (getOrCreateRoomSeq st (joinKey msg.roomId)).2 with
                transports :=
                  addTransport (getOrCreateRoomSeq st (joinKey msg.roomId)).2.transports
                    (getOrCreateRoomSeq st (joinKey msg.roomId)).1.nextTransportId },
          nextTransportId :=
            (getOrCreateRoomSeq st (joinKey msg.roomId)).1.nextTransportId + 1 },
       { transport := some (getOrCreateRoomSeq st (joinKey msg.roomId)).1.nextTransportId },
       [OutMsg.transportCreated
         (getOrCreateRoomSeq st (joinKey msg.roomId)).1.nextTransportId]) := by
  unfold handle joinKey
  simp [ha]

theorem handle_action_getcaps (pInit : Bool) (st : ServerState) (sess : Session) (msg : InMsg)
    (ha : msg.action = "get-rtp-capabilities") :
    handle pInit st sess msg =
      ((getOrCreateRoomSeq st defaultKey).1, sess,
        [OutMsg.rtpCapabilities (getOrCreateRoomSeq st defaultKey).2.routerId]) := by
  unfold handle
  simp [ha]

theorem handle_action_connect_state (pInit : Bool) (st : ServerState) (sess : Session)
    (msg : InMsg) (ha : msg.action = "connect-transport") :
    (handle pInit st sess msg).1 = st ∧ (handle pInit st sess msg).2.1 = sess := by
  unfold handle
  by_cases hts : sess.transport.isSome <;> simp [ha, hts]

theorem handle_action_resume (pInit : Bool) (st : ServerState) (sess : Session) (msg : InMsg)
    (t : Nat) (ha : msg.action = "resume-consumer") (h : sess.transport = some t) :
    handle pInit st sess msg =
      ({ (getOrCreateRoomSeq st defaultKey).1 with
          rooms := assocSet (getOrCreateRoomSeq st defaultKey).1.rooms defaultKey
            (resumeRoomUpd (getOrCreateRoomSeq st defaultKey).2 t) }, sess,
        [OutMsg.consumerResumed]) := by
  unfold handle resumeRoomUpd
  simp [ha, h]

theorem handle_noTransport (pInit : Bool) (st : ServerState) (sess : Session) (msg : InMsg)
    (h : sess.transport = none)
    (ha : msg.action = "connect-transport" ∨ msg.action = "consume" ∨
      msg.action = "resume-consumer") :
    handle pInit st sess msg = (st, sess, []) := by
  unfold handle
  rcases ha with ha | ha | ha <;> simp [ha, h]

theorem handle_unknown (pInit : Bool) (st : ServerState) (sess : Session) (msg : InMsg)
    (h : msg.action ∉ (["join", "get-rtp-capabilities", "connect-transport", "consume",
      "resume-consumer"] : List String)) :
    handle pInit st sess msg = (st, sess, []) := by
  unfold handle
  simp only [List.mem_cons, List.mem_singleton, not_or] at h
  obtain ⟨h1, h2, h3, h4, h5⟩ := h
  simp [h1, h2, h3, h4, h5]

theorem assoc_update_preserves (st : ServerState) (k k1 : JsVal) (room r2 : Room) (tid : Nat)
    (hk : assocGet st.rooms k = some room) (ht : tid ∈ room.transports)
    (hr : ∀ x, x ∈ (getOrCreateRoomSeq st k1).2.transports → x ∈ r2.transports) :
    ∃ room2, assocGet (assocSet (getOrCreateRoomSeq st k1).1.rooms k1 r2) k = some room2 ∧
      tid ∈ room2.transports := by
  by_cases hkk : k1 = k
  · subst hkk
    refine ⟨r2, assocGet_assocSet _ _ _, ?_⟩
    have h2 := goc_snd_of_get st k1 room hk
    exact hr tid (by rw [h2]; exact ht)
  · refine ⟨room, ?_, ht⟩
    rw [assocGet_assocSet_ne _ _ _ _ hkk]
    exact getOrCreateRoomSeq_preserves st k1 k room hk

theorem handle_preserves_transports (pInit : Bool) (st : ServerState) (sess : Session)
    (msg : InMsg) (k : JsVal) (room : Room) (tid : Nat)
    (hk : assocGet st.rooms k = some room) (ht : tid ∈ room.transports) :
    ∃ room2, assocGet (handle pInit st sess msg).1.rooms k = some room2 ∧
      tid ∈ room2.transports := by
  by_cases ha1 : msg.action = "join"
  · rw [handle_action_join pInit st sess msg ha1]
    exact assoc_update_preserves st k _ room _ tid hk ht
      (fun x hx => mem_addTransport_mono _ x _ hx)
  by_cases ha2 : msg.action = "get-rtp-capabilities"
  · rw [handle_action_getcaps pInit st sess msg ha2]
    exact ⟨room, getOrCreateRoomSeq_preserves st defaultKey k room hk, ht⟩
  by_cases ha3 : msg.action = "connect-transport"
  · rw [(handle_action_connect_state pInit st sess msg ha3).1]
    exact ⟨room, hk, ht⟩
  by_cases ha4 : msg.action = "consume"
  · cases hts : sess.transport with
    | none =>
      rw [handle_noTransport pInit st sess msg hts (Or.inr (Or.inl ha4))]
      exact ⟨room, hk, ht⟩
    | some t =>
      have hshape : (handle pInit st sess msg).1 = (getOrCreateRoomSeq st defaultKey).1 ∨
          ∃ r2 : Room, (handle pInit st sess msg).1.rooms =
              assocSet (getOrCreateRoomSeq st defaultKey).1.rooms defaultKey r2 ∧
            r2.transports = (getOrCreateRoomSeq st defaultKey).2.transports := by
        unfold handle
        rw [ha4, hts]
        rw [if_neg (show ¬("consume" = "join") by decide)]
        rw [if_neg (show ¬("consume" = "get-rtp-capabilities") by decide)]
        rw [if_neg (fun hc => absurd hc.1 (show ¬("consume" = "connect-transport") by decide))]
        rw [if_pos ⟨rfl, rfl⟩]
        cases hdisc : (discoverAux
            (fun _ => (getOrCreateRoomSeq st defaultKey).2.producers) 0 50).1 with
        | none => simp only [hdisc]; left; trivial
        | some p =>
          simp only [hdisc]
          right
          exact ⟨_, rfl, rfl⟩
      rcases hshape with hsh | ⟨r2, hsh, hr2⟩
      · rw [hsh]
        exact ⟨room, getOrCreateRoomSeq_preserves st defaultKey k room hk, ht⟩
      · rw [hsh]
        exact assoc_update_preserves st k defaultKey room r2 tid hk ht
          (fun x hx => by rw [hr2]; exact hx)
  by_cases ha5 : msg.action = "resume-consumer"
  · cases hts : sess.transport with
    | none =>
      rw [handle_noTransport pInit st sess msg hts (Or.inr (Or.inr ha5))]
      exact ⟨room, hk, ht⟩
    | some t =>
      rw [handle_action_resume pInit st sess msg t ha5 hts]
      refine assoc_update_preserves st k defaultKey room _ tid hk ht ?_
      intro x hx
      rw [resumeRoomUpd_transports]
      exact hx
  · rw [handle_unknown pInit st sess msg (by simp [ha1, ha2, ha3, ha4, ha5])]
    exact ⟨room, hk, ht⟩

/-! ## Claims -/

/-- C1: the claim says two concurrent first-time `getOrCreateRoom(r)` calls
yield exactly one routing context visible to all callers.  The code uses
naive check-then-create with an `await` between `rooms.has` and
`rooms.set`, so the interleaving check-A, check-B, install-A, install-B on
a fresh registry makes both calls pass the existence check: caller A
returns routing context 0, caller B returns routing context 1, two routing
contexts are negotiated (`nextRouter = 2`), and B's context overwrites A's
in the registry — the claimed guarantee fails on this execution. -/
theorem getOrCreateRoom_race_duplicate_context :
    (gocStart regInit "default").2 = GocOutcome.awaitingRouter ∧
    (gocStart (gocStart regInit "default").1 "default").2 = GocOutcome.awaitingRouter ∧
    (gocResume (gocStart (gocStart regInit "default").1 "default").1 "default").2 =
      GocOutcome.done 0 ∧
    (gocResume (gocResume (gocStart (gocStart regInit "default").1 "default").1
      "default").1 "default").2 = GocOutcome.done 1 ∧
    (gocResume (gocResume (gocStart (gocStart regInit "default").1 "default").1
      "default").1 "default").1.nextRouter = 2 ∧
    GocOutcome.done 0 ≠ GocOutcome.done 1 := by
  decide

/-- C2 counterexample: the claim quantifies over every SSRC value v,
including v = 0.  Because the creation guard is JS falsiness `!ssrc`,
after a first 12-byte datagram whose bytes 8-11 encode 0 the variable
`ssrc` holds the falsy number 0, so a second such datagram passes the
guard again and a second producer is created — refuting "no later
datagram on that receiver ever creates a second producer" at v = 0. -/
theorem zero_ssrc_creates_second_producer :
    (processPackets
      { rtpPort := 5004, rtcpPort := 5005, kind := "video", pausedInit := fun _ => false }
      recvInit
      [List.replicate 12 0, List.replicate 12 0]).store.length = 2 := by
  decide

/-- C2 (amended: for every nonzero SSRC value v): the first RTP datagram
of length at least 12 whose bytes 8-11 encode v big-endian causes exactly
one producer to be created over the whole packet stream (the store records
every `transport.produce` call and ends with exactly one entry), the
producer is indexed in the room's producer map under both its
engine-assigned id and the key v, it is unpaused after creation (resumed
if created paused), and no later datagram — same or different SSRC —
ever creates a second producer. -/
theorem first_nonzero_ssrc_single_producer (cfg : RecvCfg) (pkts : List (List Nat)) (v : Nat)
    (hv : v ≠ 0) (hfirst : firstSsrc pkts = some v) :
    (processPackets cfg recvInit pkts).store.length = 1 ∧
    (∀ p, p ∈ (processPackets cfg recvInit pkts).store → p.paused = false) ∧
    assocGet (processPackets cfg recvInit pkts).producerMap (PKey.pid 0) = some 0 ∧
    assocGet (processPackets cfg recvInit pkts).producerMap (PKey.snum v) = some 0 ∧
    (processPackets cfg recvInit pkts).ssrc = some v ∧
    (processPackets cfg recvInit pkts).producerIdx = some 0 := by
  have hst := processPackets_from_pristine cfg v hv pkts recvInit
    (by simp [pristineRecv, recvInit]) hfirst
  obtain ⟨h1, h2, h3, h4, h5⟩ := hst
  refine ⟨by rw [h3]; rfl, ?_, h4, h5, h1, h2⟩
  intro p hp
  rw [h3] at hp
  simp at hp
  rw [hp]

/-- Witness for the amended C2 theorem at a concrete stream: a 12-byte
datagram with SSRC field 1 followed by one with SSRC field 2 yields
exactly one producer. -/
theorem first_nonzero_ssrc_single_producer_witness :
    (processPackets
      { rtpPort := 5004, rtcpPort := 5005, kind := "video", pausedInit := fun _ => true }
      recvInit
      [[0, 0, 0, 0, 0, 0, 0, 0, 0, 0, 0, 1],
       [0, 0, 0, 0, 0, 0, 0, 0, 0, 0, 0, 2]]).store.length = 1 :=
  (first_nonzero_ssrc_single_producer
    { rtpPort := 5004, rtcpPort := 5005, kind := "video", pausedInit := fun _ => true }
    [[0, 0, 0, 0, 0, 0, 0, 0, 0, 0, 0, 1], [0, 0, 0, 0, 0, 0, 0, 0, 0, 0, 0, 2]]
    1 (by decide) (by decide)).1

/-- C3: the claim says that when one of the paired binds fails, the other
already-bound socket is released so that no partially-bound receiver
remains.  The code awaits `Promise.all` over the two binds and contains no
`close()` call: when the RTCP bind on port+1 fails while the RTP bind
succeeded, the operation does reject with the bind error, but the RTP
socket stays bound (and symmetrically with the roles swapped) — the
release required by the claim never happens. -/
theorem bind_failure_leaves_partner_bound :
    (bindPair none (some "EADDRINUSE")).result = BindResult.bindErr "EADDRINUSE" ∧
    (bindPair none (some "EADDRINUSE")).rtpBound = true ∧
    (bindPair (some "EADDRINUSE") none).result = BindResult.bindErr "EADDRINUSE" ∧
    (bindPair (some "EADDRINUSE") none).rtcpBound = true := by
  decide

/-- C4: Producer Discovery returns a producer on the first check, with no
sleep taken, when an unclosed video producer already exists; it performs
at most 50 checks; it reports failure exactly when all 50 checks find no
match (in which case it performed 50 checks and 50 sleeps of 100 ms); on
success the check count exceeds the sleep count by one (one 100 ms sleep
between consecutive checks); and a consume request against a room with no
matching producer is answered with exactly the single message
`action = error, message = "No producer available"` while the session
object is left unchanged (the handler returns; it never closes the
socket). -/
theorem producer_discovery_bounded (sets : Nat → List Producer) (pInit : Bool)
    (st : ServerState) (sess : Session) (t : Nat) :
    (∀ p, findVideoProducer (sets 0) = some p → discoverAux sets 0 50 = (some p, 1, 0)) ∧
    (discoverAux sets 0 50).2.1 ≤ 50 ∧
    ((discoverAux sets 0 50).1 = none ↔ ∀ j, j < 50 → findVideoProducer (sets j) = none) ∧
    ((discoverAux sets 0 50).1 = none → discoverAux sets 0 50 = (none, 50, 50)) ∧
    (∀ p, (discoverAux sets 0 50).1 = some p →
      (discoverAux sets 0 50).2.1 = (discoverAux sets 0 50).2.2 + 1) ∧
    (sess.transport = some t →
      (∀ room, assocGet st.rooms defaultKey = some room →
        findVideoProducer room.producers = none) →
      handle pInit st sess consumeMsg =
        ((getOrCreateRoomSeq st defaultKey).1, sess,
          [OutMsg.errorMsg "No producer available"])) := by
  refine ⟨?_, ?_, ?_, ?_, ?_, ?_⟩
  · intro p hp
    exact discoverAux_first_check sets 0 49 p hp
  · exact discoverAux_checks_le sets 50 0
  · rw [discoverAux_none_iff sets 50 0]
    constructor
    · intro h j hj
      have := h j hj
      rwa [Nat.zero_add] at this
    · intro h j hj
      rw [Nat.zero_add]
      exact h j hj
  · exact discoverAux_none_counts sets 50 0
  · intro p hp
    exact discoverAux_some_counts sets 50 0 p hp
  · intro h hno
    apply handle_consume_noProducer pInit st sess t h
    cases hr : assocGet st.rooms defaultKey with
    | some room =>
      rw [goc_snd_of_get st defaultKey room hr]
      exact hno room hr
    | none =>
      unfold getOrCreateRoomSeq
      rw [hr]
      simp [findVideoProducer]

/-- Witness for C4 at concrete inputs: an available producer is returned
on the first check with no sleep, and a consume against an empty registry
receives exactly the NoProducerAvailable error. -/
theorem producer_discovery_bounded_witness :
    discoverAux (fun _ => [{ id := 7, kind := "video", paused := false, closed := false }])
      0 50 = (some { id := 7, kind := "video", paused := false, closed := false }, 1, 0) ∧
    handle false { rooms := [], nextRouterId := 0, nextTransportId := 1, nextConsumerId := 0 }
        { transport := some 0 } consumeMsg =
      ((getOrCreateRoomSeq
          { rooms := [], nextRouterId := 0, nextTransportId := 1, nextConsumerId := 0 }
          defaultKey).1,
        { transport := some 0 }, [OutMsg.errorMsg "No producer available"]) :=
  ⟨(producer_discovery_bounded
      (fun _ => [{ id := 7, kind := "video", paused := false, closed := false }]) false
      { rooms := [], nextRouterId := 0, nextTransportId := 1, nextConsumerId := 0 }
      { transport := some 0 } 0).1 _ (by decide),
   (producer_discovery_bounded (fun _ => []) false
      { rooms := [], nextRouterId := 0, nextTransportId := 1, nextConsumerId := 0 }
      { transport := some 0 } 0).2.2.2.2.2 rfl
      (by intro room h; simp [assocGet] at h)⟩

/-- C5: with the forwarding ports set (the ingest transport always yields
nonzero local ports), an RTCP datagram is always forwarded unmodified,
independent of producer state; an RTP datagram is forwarded (unmodified,
appended as-is to the forward stream) exactly when a producer exists once
this datagram's creation phase has run — so never before a producer has
been created for the receiver, always afterwards, including datagrams
shorter than 12 bytes. -/
theorem receiver_forwarding_policy (cfg : RecvCfg) (st : RecvModel) (pkt : List Nat)
    (h1 : cfg.rtpPort ≠ 0) (h2 : cfg.rtcpPort ≠ 0) :
    (rtcpStep cfg st pkt).rtcpForwarded = st.rtcpForwarded ++ [pkt] ∧
    ((rtpStep cfg st pkt).forwarded = st.forwarded ++ [pkt] ↔
      ((rtpStep cfg st pkt).producerIdx).isSome = true) ∧
    ((rtpStep cfg st pkt).forwarded = st.forwarded ∨
      (rtpStep cfg st pkt).forwarded = st.forwarded ++ [pkt]) ∧
    (st.producerIdx = none → (rtpStep cfg st pkt).producerIdx = none →
      (rtpStep cfg st pkt).forwarded = st.forwarded) ∧
    (st.producerIdx.isSome = true → (rtpStep cfg st pkt).forwarded = st.forwarded ++ [pkt]) := by
  refine ⟨by simp [rtcpStep, h2], ?_⟩
  by_cases hc : (jsNumFalsy st.ssrc && decide (pkt.length ≥ 12)) = true
  · refine ⟨by simp [rtpStep, hc, h1], Or.inr (by simp [rtpStep, hc, h1]), ?_, ?_⟩
    · intro _ habs
      simp [rtpStep, hc, h1] at habs
    · intro _
      simp [rtpStep, hc, h1]
  · by_cases hp : st.producerIdx.isSome = true
    · refine ⟨by simp [rtpStep, hc, hp, h1], Or.inr (by simp [rtpStep, hc, hp, h1]), ?_, ?_⟩
      · intro habs _
        rw [habs] at hp
        simp at hp
      · intro _
        simp [rtpStep, hc, hp, h1]
    · have hp2 : st.producerIdx.isSome = false := by simpa using hp
      refine ⟨?_, Or.inl (by simp [rtpStep, hc, hp2]), ?_, ?_⟩
      · constructor
        · intro habs
          simp [rtpStep, hc, hp2] at habs
        · intro habs
          simp [rtpStep, hc, hp2] at habs
      · intro _ _
        simp [rtpStep, hc, hp2]
      · intro hcon
        exact absurd hcon hp

/-- Witness for C5 at a concrete input: a too-short RTP datagram arriving
at a pristine receiver is not forwarded, and an RTCP datagram is. -/
theorem receiver_forwarding_policy_witness :
    (rtcpStep
      { rtpPort := 5004, rtcpPort := 5005, kind := "video", pausedInit := fun _ => false }
      recvInit [1, 2, 3]).rtcpForwarded = recvInit.rtcpForwarded ++ [[1, 2, 3]] ∧
    (rtpStep
      { rtpPort := 5004, rtcpPort := 5005, kind := "video", pausedInit := fun _ => false }
      recvInit [1, 2, 3]).forwarded = recvInit.forwarded :=
  ⟨(receiver_forwarding_policy
      { rtpPort := 5004, rtcpPort := 5005, kind := "video", pausedInit := fun _ => false }
      recvInit [1, 2, 3] (by decide) (by decide)).1,
   (receiver_forwarding_policy
      { rtpPort := 5004, rtcpPort := 5005, kind := "video", pausedInit := fun _ => false }
      recvInit [1, 2, 3] (by decide) (by decide)).2.2.2.1 rfl (by decide)⟩

/-- C6: for a session holding a transport, every resume-consumer request
is acknowledged with exactly `action = consumer-resumed` and leaves the
session object unchanged; and a second resume-consumer issued after a
first one changes neither the server state nor the session (the consumer
the lookup finds is no longer paused, so the second call resumes
nothing) and is acknowledged the same way — the operation is
idempotent. -/
theorem resume_consumer_idempotent (pInit : Bool) (st : ServerState) (sess : Session) (t : Nat)
    (h : sess.transport = some t) :
    (handle pInit st sess resumeMsg).2.2 = [OutMsg.consumerResumed] ∧
    (handle pInit st sess resumeMsg).2.1 = sess ∧
    handle pInit (handle pInit st sess resumeMsg).1 (handle pInit st sess resumeMsg).2.1
        resumeMsg =
      ((handle pInit st sess resumeMsg).1, (handle pInit st sess resumeMsg).2.1,
        [OutMsg.consumerResumed]) := by
  have hout : (handle pInit st sess resumeMsg).2.2 = [OutMsg.consumerResumed] := by
    rw [handle_resume_eq pInit st sess t h]
  have hs : (handle pInit st sess resumeMsg).2.1 = sess := by
    rw [handle_resume_eq pInit st sess t h]
  refine ⟨hout, hs, ?_⟩
  rw [hs]
  rw [handle_resume_second pInit st sess t h]

/-- Witness for C6 at a concrete state: a default room with one paused
consumer owned by transport 5; the session's second resume-consumer call
leaves the state reached after the first call unchanged. -/
theorem resume_consumer_idempotent_witness :
    (handle true
      { rooms := [(defaultKey,
          { routerId := 0, transports := [5], producers := [],
            consumers := [{ id := 9, transportId := 5, producerId := 3, paused := true }] })],
        nextRouterId := 1, nextTransportId := 6, nextConsumerId := 10 }
      { transport := some 5 } resumeMsg).2.2 = [OutMsg.consumerResumed] :=
  (resume_consumer_idempotent true
    { rooms := [(defaultKey,
        { routerId := 0, transports := [5], producers := [],
          consumers := [{ id := 9, transportId := 5, producerId := 3, paused := true }] })],
      nextRouterId := 1, nextTransportId := 6, nextConsumerId := 10 }
    { transport := some 5 } 5 rfl).1

/-- C7: a connect-transport, consume or resume-consumer request arriving
at a session that has no transport (has never completed join) is a silent
no-op: no message is sent, and neither the server state (all rooms) nor
the session changes. -/
theorem no_transport_silent_noop (pInit : Bool) (st : ServerState) (sess : Session)
    (msg : InMsg) (h : sess.transport = none)
    (ha : msg.action = "connect-transport" ∨ msg.action = "consume" ∨
      msg.action = "resume-consumer") :
    handle pInit st sess msg = (st, sess, []) :=
  handle_noTransport pInit st sess msg h ha

/-- Witness for C7: a fresh session sending consume over an empty
registry gets no reply and changes nothing. -/
theorem no_transport_silent_noop_witness :
    handle false { rooms := [], nextRouterId := 0, nextTransportId := 0, nextConsumerId := 0 }
        { transport := none } consumeMsg =
      ({ rooms := [], nextRouterId := 0, nextTransportId := 0, nextConsumerId := 0 },
        { transport := none }, []) :=
  no_transport_silent_noop false
    { rooms := [], nextRouterId := 0, nextTransportId := 0, nextConsumerId := 0 }
    { transport := none } consumeMsg rfl (Or.inr (Or.inl rfl))

/-- C8: no signaling action ever removes a transport from any room's
transports map (every transport a room holds before a message is still
held, whatever the message), and a session that joins twice gets a fresh
transport id overwriting its previous reference while the room keeps
both transports — so every interactive transport ever created stays in
the map for the process lifetime. -/
theorem join_transports_accumulate (pInit : Bool) :
    (∀ st sess msg k room tid, assocGet st.rooms k = some room → tid ∈ room.transports →
      ∃ room2, assocGet (handle pInit st sess msg).1.rooms k = some room2 ∧
        tid ∈ room2.transports) ∧
    (∀ st sess v,
      (handle pInit st sess (joinMsg v)).2.1.transport = some st.nextTransportId ∧
      (handle pInit (handle pInit st sess (joinMsg v)).1
          (handle pInit st sess (joinMsg v)).2.1 (joinMsg v)).2.1.transport =
        some (st.nextTransportId + 1) ∧
      st.nextTransportId ≠ st.nextTransportId + 1 ∧
      ∃ room2, assocGet (handle pInit (handle pInit st sess (joinMsg v)).1
            (handle pInit st sess (joinMsg v)).2.1 (joinMsg v)).1.rooms (joinKey v) =
          some room2 ∧
        st.nextTransportId ∈ room2.transports ∧
        st.nextTransportId + 1 ∈ room2.transports) := by
  constructor
  · intro st sess msg k room tid hk ht
    exact handle_preserves_transports pInit st sess msg k room tid hk ht
  · intro st sess v
    have hc1 := (getOrCreateRoomSeq_counters st (joinKey v)).1
    have e1 := handle_join_eq pInit st sess v
    have hsess1 : (handle pInit st sess (joinMsg v)).2.1 =
        { transport := some st.nextTransportId } := by
      rw [e1, hc1]
    have hrooms1 : (handle pInit st sess (joinMsg v)).1.rooms =
        assocSet (getOrCreateRoomSeq st (joinKey v)).1.rooms (joinKey v)
          { (getOrCreateRoomSeq st (joinKey v)).2 with
              transports := addTransport (getOrCreateRoomSeq st (joinKey v)).2.transports
                st.nextTransportId } := by
      rw [e1, hc1]
    have hnext1 : (handle pInit st sess (joinMsg v)).1.nextTransportId =
        st.nextTransportId + 1 := by
      rw [e1, hc1]
    have hget2 : assocGet (handle pInit st sess (joinMsg v)).1.rooms (joinKey v) =
        some { (getOrCreateRoomSeq st (joinKey v)).2 with
            transports := addTransport (getOrCreateRoomSeq st (joinKey v)).2.transports
              st.nextTransportId } := by
      rw [hrooms1]
      exact assocGet_assocSet _ _ _
    have e2 := handle_join_eq pInit (handle pInit st sess (joinMsg v)).1
      (handle pInit st sess (joinMsg v)).2.1 v
    rw [goc_fst_of_get _ _ _ hget2, goc_snd_of_get _ _ _ hget2] at e2
    refine ⟨by rw [hsess1], ?_, by omega, ?_⟩
    · rw [e2, hnext1]
    · rw [e2]
      refine ⟨_, assocGet_assocSet _ _ _, ?_, ?_⟩
      · exact mem_addTransport_mono _ _ _ (mem_addTransport_self _ _)
      · rw [hnext1]
        exact mem_addTransport_self _ _

/-- Witness for C8 at a concrete input: a stored transport (id 5) of the
default room survives a get-rtp-capabilities message. -/
theorem join_transports_accumulate_witness :
    ∃ room2, assocGet (handle false
        { rooms := [(defaultKey,
            { routerId := 0, transports := [5], producers := [], consumers := [] })],
          nextRouterId := 1, nextTransportId := 6, nextConsumerId := 0 }
        { transport := none } getCapsMsg).1.rooms defaultKey = some room2 ∧
      5 ∈ room2.transports :=
  (join_transports_accumulate false).1
    { rooms := [(defaultKey,
        { routerId := 0, transports := [5], producers := [], consumers := [] })],
      nextRouterId := 1, nextTransportId := 6, nextConsumerId := 0 }
    { transport := none } getCapsMsg defaultKey
    { routerId := 0, transports := [5], producers := [], consumers := [] } 5
    (by decide) (by decide)

/-- C9: a join whose roomId is falsy (absent/undefined, null, empty
string, 0, false) behaves exactly like a join with roomId "default": the
resolved key is the "default" key, the created transport lands in the
room stored under "default", and a subsequent get-rtp-capabilities (which
always resolves the "default" room, as do consume and resume-consumer)
reports that same room's routing context without changing any state. -/
theorem falsy_roomid_defaults (pInit : Bool) (st : ServerState) (sess : Session) (v : JsVal)
    (h : truthy v = false) :
    joinKey v = defaultKey ∧
    handle pInit st sess (joinMsg v) = handle pInit st sess (joinMsg defaultKey) ∧
    (∃ room, assocGet (handle pInit st sess (joinMsg v)).1.rooms defaultKey = some room ∧
      (handle pInit st sess (joinMsg v)).2.1.transport = some st.nextTransportId ∧
      st.nextTransportId ∈ room.transports ∧
      handle pInit (handle pInit st sess (joinMsg v)).1 (handle pInit st sess (joinMsg v)).2.1
          getCapsMsg =
        ((handle pInit st sess (joinMsg v)).1, (handle pInit st sess (joinMsg v)).2.1,
          [OutMsg.rtpCapabilities room.routerId])) := by
  have hjk : joinKey v = defaultKey := by simp [joinKey, h]
  have hjd : joinKey defaultKey = defaultKey := by decide
  have hc1 := (getOrCreateRoomSeq_counters st defaultKey).1
  have e1 := handle_join_eq pInit st sess v
  rw [hjk] at e1
  refine ⟨hjk, ?_, ?_⟩
  · rw [handle_join_eq pInit st sess v, handle_join_eq pInit st sess defaultKey, hjk, hjd]
  · have hget2 : assocGet (handle pInit st sess (joinMsg v)).1.rooms defaultKey =
        some { (getOrCreateRoomSeq st defaultKey).2 with
            transports := addTransport (getOrCreateRoomSeq st defaultKey).2.transports
              ((getOrCreateRoomSeq st defaultKey).1.nextTransportId) } := by
      rw [e1]
      exact assocGet_assocSet _ _ _
    refine ⟨{ (getOrCreateRoomSeq st defaultKey).2 with
        transports := addTransport (getOrCreateRoomSeq st defaultKey).2.transports
          ((getOrCreateRoomSeq st defaultKey).1.nextTransportId) }, hget2, ?_, ?_, ?_⟩
    · rw [e1, hc1]
    · rw [hc1]
      exact mem_addTransport_self _ _
    · rw [handle_getcaps_eq pInit ((handle pInit st sess (joinMsg v)).1)
        ((handle pInit st sess (joinMsg v)).2.1)]
      rw [goc_fst_of_get _ _ _ hget2, goc_snd_of_get _ _ _ hget2]

/-- Witness for C9 at the empty-string roomId named by the claim. -/
theorem falsy_roomid_defaults_witness :
    handle false { rooms := [], nextRouterId := 0, nextTransportId := 0, nextConsumerId := 0 }
        { transport := none } (joinMsg (JsVal.str "")) =
      handle false { rooms := [], nextRouterId := 0, nextTransportId := 0, nextConsumerId := 0 }
        { transport := none } (joinMsg defaultKey) :=
  (falsy_roomid_defaults false
    { rooms := [], nextRouterId := 0, nextTransportId := 0, nextConsumerId := 0 }
    { transport := none } (JsVal.str "") (by decide)).2.1

/-- C10: a well-formed message whose action is none of the five handled
strings falls through every branch of the dispatch chain: no message is
sent and neither the server state nor the session changes. -/
theorem unknown_action_noop (pInit : Bool) (st : ServerState) (sess : Session) (msg : InMsg)
    (h : msg.action ∉ (["join", "get-rtp-capabilities", "connect-transport", "consume",
      "resume-consumer"] : List String)) :
    handle pInit st sess msg = (st, sess, []) :=
  handle_unknown pInit st sess msg h

/-- Witness for C10: an unrecognized action "ping" is ignored. -/
theorem unknown_action_noop_witness :
    handle false { rooms := [], nextRouterId := 0, nextTransportId := 0, nextConsumerId := 0 }
        { transport := some 3 } { action := "ping", roomId := JsVal.undef } =
      ({ rooms := [], nextRouterId := 0, nextTransportId := 0, nextConsumerId := 0 },
        { transport := some 3 }, []) :=
  unknown_action_noop false
    { rooms := [], nextRouterId := 0, nextTransportId := 0, nextConsumerId := 0 }
    { transport := some 3 } { action := "ping", roomId := JsVal.undef } (by decide)
